import Mathlib

/-
Verification of the `serrors` package (src/serrors.go): a status-error type
carrying an int32 code, a message, a string-to-string metadata map and an
optional cause, with conversion to and from a gRPC wire status.

Shallow embedding conventions:
* Go `int` / `int32` are modelled as `Int`; the conversion `int32(code)`
  performed by `New` is modelled by `toInt32` (truncation modulo 2^32 into
  the signed 32-bit range).
* `map[string]string` is modelled as an association list
  `List (String × String)`; a `nil` map is `[]`.
* A Go `error` interface value is modelled as the chain of values reached by
  successive `Unwrap` calls (`GoError`, a list of layers); the `nil` error is
  the empty chain `[]`.  A nilable `*Error` is `Option Error`.
* The external code mapper (`httpstatus.ToGRPCCode` / `FromGRPCCode` from the
  kratos transport package) is an external collaborator; it is kept abstract
  as a `WireEnv` of two integer maps, with wire code 0 standing for
  `codes.OK`, as the spec directs ("need not be exact inverses").
* The gRPC status library is modelled by `GrpcStatus` together with
  `withDetails` (which fails, returning a nil status, exactly when the status
  code is `codes.OK` = 0, as `google.golang.org/grpc/status` does) and
  `GrpcStatus.toErr` (`(*Status).Err()`, which is the nil error for an OK or
  nil status).
* A Go panic (nil-pointer dereference) is modelled by `none` in the
  `...Nilable` wrappers for the pointer-receiver methods.
-/

namespace serrors

/-- Truncation of a Go `int` to `int32`, as performed by the conversion
`int32(code)` in `New`: reduce modulo 2^32 into the range [-2^31, 2^31). -/
def toInt32 (n : Int) : Int :=
  (n + 2 ^ 31) % 2 ^ 32 - 2 ^ 31

/-- `UnknownCode` (src/serrors.go line 14): the sentinel for unclassified
failures. -/
def UnknownCode : Int := 500

/-- The embedded `Status` record of `Error` (the struct is generated outside
src/; its fields are fixed by their uses in src/serrors.go): `Errcode int32`,
`Errmsg string`, `Result map[string]string`. -/
structure Status where
  Errcode : Int
  Errmsg : String
  Result : List (String × String)
  deriving DecidableEq, Repr

/-- A detail payload attached to a gRPC status.  The only kind the package
recognises is `errdetails.ErrorInfo` carrying the metadata mapping; every
other kind is `otherDetail` and is skipped by `FromError`. -/
inductive Detail where
  | errorInfo (metadata : List (String × String))
  | otherDetail
  deriving DecidableEq, Repr

/-- A gRPC wire status (`google.golang.org/grpc/status.Status`): wire code,
message, and a list of detail payloads.  Wire code 0 is `codes.OK`. -/
structure GrpcStatus where
  code : Int
  message : String
  details : List Detail
  deriving DecidableEq, Repr

/-- One layer of a Go error chain:
* `serr`: a non-nil `*Error` of this package (its `Status`; the rest of the
  chain is its cause);
* `grpc`: an error produced by `status.Err()`, carrying a wire status; it has
  no `Unwrap` method, so chain traversal stops there;
* `basic`: any other error, exposing only its `Error()` string; the rest of
  the chain is what it unwraps to (nothing when the chain ends there). -/
inductive ErrorLayer where
  | serr (st : Status)
  | grpc (s : GrpcStatus)
  | basic (msg : String)
  deriving DecidableEq, Repr

/-- A Go `error` interface value: the linear chain reached by successive
`Unwrap` calls.  `[]` is the nil error. -/
abbrev GoError := List ErrorLayer

/-- The `Error` struct (src/serrors.go lines 22-25): an embedded `Status`
plus a `cause error`.  This models a non-nil `*Error`; a nilable pointer is
`Option Error`. -/
structure Error where
  Status : Status
  cause : GoError
  deriving DecidableEq, Repr

/-- Promoted field `e.Errcode` of the embedded `Status`. -/
def Error.Errcode (e : Error) : Int := e.Status.Errcode

/-- Promoted field `e.Errmsg` of the embedded `Status`. -/
def Error.Errmsg (e : Error) : String := e.Status.Errmsg

/-- Promoted field `e.Result` of the embedded `Status`. -/
def Error.Result (e : Error) : List (String × String) := e.Status.Result

/-- A non-nil `*Error` viewed as a Go `error` value: itself, then its cause
chain. -/
def Error.toGoError (e : Error) : GoError := ErrorLayer.serr e.Status :: e.cause

/-- `Unwrap` (src/serrors.go line 32): returns the cause. -/
def Error.Unwrap (e : Error) : GoError := e.cause

/-- First-key lookup in a metadata association list (the observation defining
entry-wise equality of metadata maps). -/
def lookupMd (k : String) : List (String × String) → Option String
  | [] => none
  | kv :: rest => if kv.1 = k then some kv.2 else lookupMd k rest

/-- Insertion into a key-sorted association list, used only to render a
metadata map the way Go `fmt` prints maps (sorted by key). -/
def insertSorted (kv : String × String) : List (String × String) → List (String × String)
  | [] => [kv]
  | kv' :: rest =>
    match compare kv.1 kv'.1 with
    | Ordering.gt => kv' :: insertSorted kv rest
    | _ => kv :: kv' :: rest

/-- Key-sorting of a metadata map, mirroring the sorted order in which Go
`fmt` prints `map[...]`. -/
def sortByKey : List (String × String) → List (String × String)
  | [] => []
  | kv :: rest => insertSorted kv (sortByKey rest)

/-- Rendering of a metadata map as Go `fmt` prints a `map[string]string`:
`map[k1:v1 k2:v2]`, keys sorted. -/
def renderMetadata (md : List (String × String)) : String :=
  "map[" ++ String.intercalate " " ((sortByKey md).map (fun kv => kv.1 ++ ":" ++ kv.2)) ++ "]"

/-- The `Error()` method (src/serrors.go lines 27-29).  The format string has
four verbs but only three arguments, so Go `fmt` renders the
missing-argument marker for `cause`. -/
def Error.errorString (e : Error) : String :=
  "errcode: code = " ++ toString e.Errcode ++ " errmsg = " ++ e.Errmsg ++
    " result = " ++ renderMetadata e.Result ++ " cause = %!v(MISSING)"

/-- `err.Error()` for an arbitrary non-nil Go error value (the head of the
chain).  For a gRPC status error Go prints the code's name rather than its
number; no claim depends on that string's exact shape. -/
def errorString : GoError → String
  | [] => ""
  | ErrorLayer.serr st :: rest => Error.errorString ⟨st, rest⟩
  | ErrorLayer.grpc s :: _ => "rpc error: code = " ++ toString s.code ++ " desc = " ++ s.message
  | ErrorLayer.basic msg :: _ => msg

/-- `errors.As(err, &se)` with a `*Error` target: walk the `Unwrap` chain and
return the first `*Error` found.  A gRPC status error has no `Unwrap`
method, so traversal stops there; `errors.As` of the nil error is a miss. -/
def errorsAsError : GoError → Option Error
  | [] => none
  | ErrorLayer.serr st :: rest => some ⟨st, rest⟩
  | ErrorLayer.grpc _ :: _ => none
  | ErrorLayer.basic _ :: rest => errorsAsError rest

/-- The `Is` method (src/serrors.go lines 35-40): find an `*Error` in the
target's chain and compare codes; otherwise false. -/
def Error.Is (e : Error) (err : GoError) : Bool :=
  match errorsAsError err with
  | some se => se.Errcode == e.Errcode
  | none => false

/-- The entry-wise copy of the metadata map performed by `Clone`
(src/serrors.go lines 99-102): each entry of the source map is written into a
fresh map; at the value level the fresh map holds exactly the same entries. -/
def copyMetadata : List (String × String) → List (String × String)
  | [] => []
  | kv :: rest => kv :: copyMetadata rest

/-- The non-nil branch of `Clone` (src/serrors.go lines 99-110): a new
`Error` with the same code and message, an entry-wise copy of the metadata,
and the cause reference copied verbatim. -/
def cloneCore (err : Error) : Error :=
  { Status := { Errcode := err.Errcode, Errmsg := err.Errmsg, Result := copyMetadata err.Result },
    cause := err.cause }

/-- `Clone` (src/serrors.go lines 95-111): nil-safe deep clone. -/
def Clone : Option Error → Option Error
  | none => none
  | some err => some (cloneCore err)

/-- `WithCause` (src/serrors.go lines 43-47) on a non-nil receiver:
`err := Clone(e); err.cause = cause; return err`. -/
def Error.WithCause (e : Error) (cause : GoError) : Error :=
  { cloneCore e with cause := cause }

/-- `WithMetadata` (src/serrors.go lines 50-54) on a non-nil receiver:
`err := Clone(e); err.Result = md; return err` — the supplied map is adopted
by reference. -/
def Error.WithMetadata (e : Error) (md : List (String × String)) : Error :=
  let err := cloneCore e
  { err with Status := { err.Status with Result := md } }

/-- `WithCause` on a possibly nil receiver.  `none` models the nil-pointer
panic: `Clone(nil)` returns nil and the write `err.cause = cause` then
dereferences a nil pointer. -/
def withCauseNilable (e : Option Error) (cause : GoError) : Option Error :=
  match Clone e with
  | none => none
  | some err => some { err with cause := cause }

/-- `WithMetadata` on a possibly nil receiver.  `none` models the nil-pointer
panic on the write `err.Result = md` when the receiver is nil. -/
def withMetadataNilable (e : Option Error) (md : List (String × String)) : Option Error :=
  match Clone e with
  | none => none
  | some err => some { err with Status := { err.Status with Result := md } }

/-- The `Error()` method on a possibly nil receiver.  `none` models the
nil-pointer panic when the format arguments read the fields of a nil
receiver. -/
def errorStringNilable : Option Error → Option String
  | none => none
  | some e => some e.errorString

/-- `Unwrap` on a possibly nil receiver.  `none` models the nil-pointer panic
on reading `e.cause`. -/
def unwrapNilable : Option Error → Option GoError
  | none => none
  | some e => some e.Unwrap

/-- The `Is` method on a possibly nil receiver.  `errors.As` runs before the
receiver is touched, so a nil receiver panics (`none`) only when the target's
chain does contain an `*Error`; otherwise the method returns `false` without
dereferencing the receiver. -/
def isNilable (e : Option Error) (err : GoError) : Option Bool :=
  match errorsAsError err with
  | some se =>
    match e with
    | none => none
    | some e' => some (se.Errcode == e'.Errcode)
  | none => some false

/-- The external code mapper collaborator (`httpstatus.ToGRPCCode` /
`FromGRPCCode`), kept abstract: two total integer maps between the internal
code space and the wire code space.  Wire code 0 is `codes.OK`. -/
structure WireEnv where
  toGRPCCode : Int → Int
  fromGRPCCode : Int → Int

/-- `(*status.Status).WithDetails` of the gRPC status library: appends the
detail payloads, but fails when the status code is `codes.OK` (0), in which
case it returns a nil status (`none`) together with the error that the
package under verification discards. -/
def withDetails (s : GrpcStatus) (d : Detail) : Option GrpcStatus :=
  if s.code = 0 then none else some { s with details := s.details ++ [d] }

/-- `GRPCStatus` (src/serrors.go lines 57-63): build a status from the mapped
code and the message, then `s, _ := ... .WithDetails(ErrorInfo{Metadata:
e.Result}); return s`.  The discarded second component means the returned
status is nil (`none`) exactly when `WithDetails` fails. -/
def Error.GRPCStatus (env : WireEnv) (e : Error) : Option GrpcStatus :=
  withDetails { code := env.toGRPCCode e.Errcode, message := e.Errmsg, details := [] }
    (Detail.errorInfo e.Result)

/-- `GRPCStatus` on a possibly nil receiver.  The outer `none` models the
nil-pointer panic on reading the fields of a nil receiver. -/
def grpcStatusNilable (env : WireEnv) : Option Error → Option (Option GrpcStatus)
  | none => none
  | some e => some (Error.GRPCStatus env e)

/-- `(*status.Status).Err()`: the nil error for an OK status, otherwise an
error carrying the status. -/
def GrpcStatus.toErr (s : GrpcStatus) : GoError :=
  if s.code = 0 then [] else [ErrorLayer.grpc s]

/-- Transmission of a possibly nil status as a Go error (`s.Err()`; a nil
status also yields the nil error). -/
def wireSend : Option GrpcStatus → GoError
  | none => []
  | some s => s.toErr

/-- `New` (src/serrors.go lines 66-73): code truncated by the `int32(code)`
conversion, message as given, nil metadata, no cause. -/
def New (code : Int) (message : String) : Error :=
  { Status := { Errcode := toInt32 code, Errmsg := message, Result := [] }, cause := [] }

/-- `Newf` (src/serrors.go lines 76-78): `fmt.Sprintf` is an external
formatter, so the model receives its output. -/
def Newf (code : Int) (formatted : String) : Error :=
  New code formatted

/-- `Errorf` (src/serrors.go lines 81-83): like `Newf` but returned as a
generic `error` value. -/
def Errorf (code : Int) (formatted : String) : GoError :=
  (New code formatted).toGoError

/-- The `errors.As(err, &gs)` search inside `status.FromError`: find the
first element of the chain implementing `GRPCStatus() *status.Status`.  A
non-nil `*Error` implements it (possibly returning a nil status, which counts
as a miss); a status error carries its status; traversal stops where the
chain does. -/
def findGRPCStatus (env : WireEnv) : GoError → Option GrpcStatus
  | [] => none
  | ErrorLayer.serr st :: rest => Error.GRPCStatus env ⟨st, rest⟩
  | ErrorLayer.grpc s :: _ => some s
  | ErrorLayer.basic _ :: rest => findGRPCStatus env rest

/-- `status.FromError` (the gRPC status library), restricted to the `ok =
true` results (`none` is `ok = false`): a direct status-bearing error yields
its status; a wrapped one yields it with the message replaced by the outer
error's `Error()` string; the nil-error case is unreachable from
`FromError`, which checks nil first. -/
def statusFromError (env : WireEnv) : GoError → Option GrpcStatus
  | [] => none
  | ErrorLayer.serr st :: rest => Error.GRPCStatus env ⟨st, rest⟩
  | ErrorLayer.grpc s :: _ => some s
  | ErrorLayer.basic msg :: rest =>
    (findGRPCStatus env rest).map (fun s => { s with message := msg })

/-- The detail scan of `FromError` (src/serrors.go lines 130-135): return the
metadata of the first `ErrorInfo` detail, if any. -/
def findErrorInfo : List Detail → Option (List (String × String))
  | [] => none
  | Detail.errorInfo md :: _ => some md
  | Detail.otherDetail :: rest => findErrorInfo rest

/-- The non-nil branch of `FromError` (src/serrors.go lines 119-136): return
the first `*Error` of the chain if there is one; otherwise, if no wire status
can be extracted, wrap the error string under `UnknownCode`; otherwise map
the wire code back, capture the message, and enrich with the metadata of the
first `ErrorInfo` detail when present. -/
def fromErrorCore (env : WireEnv) (err : GoError) : Error :=
  match errorsAsError err with
  | some se => se
  | none =>
    match statusFromError env err with
    | none => New UnknownCode (errorString err)
    | some gs =>
      let ret := New (env.fromGRPCCode gs.code) gs.message
      match findErrorInfo gs.details with
      | some md => ret.WithMetadata md
      | none => ret

/-- `FromError` (src/serrors.go lines 115-137): nil in, nil out; otherwise
the non-nil conversion `fromErrorCore`. -/
def FromError (env : WireEnv) : GoError → Option Error
  | [] => none
  | err => some (fromErrorCore env err)

/-- `Code` (src/serrors.go lines 87-92): 200 for the nil error, otherwise
`FromError(err).Errcode` (which is `fromErrorCore` since the argument is
non-nil). -/
def Code (env : WireEnv) : GoError → Int
  | [] => 200
  | err => (fromErrorCore env err).Errcode

/-- The wire round trip of the spec: convert an `Error` to its wire status,
transmit it as an error (`status.Err()`), and convert back with
`FromError`. -/
def roundTrip (env : WireEnv) (e : Error) : Option Error :=
  FromError env (wireSend (Error.GRPCStatus env e))

/-- A concrete instance of the external code mapper, agreeing with the real
collaborator (the kratos HTTP/gRPC status mapper) on the codes the claims
exercise: 200 is OK (0), 404 is NotFound (5), 500 is Internal (13), all
other internal codes map to Unknown (2), and unlisted wire codes map back
to 500. -/
def envK : WireEnv where
  toGRPCCode := fun c =>
    if c = 200 then 0 else if c = 404 then 5 else if c = 500 then 13 else 2
  fromGRPCCode := fun c =>
    if c = 0 then 200 else if c = 5 then 404 else if c = 13 then 500 else 500

/-! ### Basic lemmas about the embedding -/

theorem copyMetadata_eq (md : List (String × String)) : copyMetadata md = md := by
  induction md with
  | nil => rfl
  | cons kv rest ih => simp [copyMetadata, ih]

theorem cloneCore_Errcode (e : Error) : (cloneCore e).Errcode = e.Errcode := rfl

theorem cloneCore_Errmsg (e : Error) : (cloneCore e).Errmsg = e.Errmsg := rfl

theorem cloneCore_Result (e : Error) : (cloneCore e).Result = e.Result := by
  simp [cloneCore, Error.Result, copyMetadata_eq]

theorem cloneCore_cause (e : Error) : (cloneCore e).cause = e.cause := rfl

theorem withMetadata_Errcode (e : Error) (md : List (String × String)) :
    (e.WithMetadata md).Errcode = e.Errcode := rfl

theorem withMetadata_Errmsg (e : Error) (md : List (String × String)) :
    (e.WithMetadata md).Errmsg = e.Errmsg := rfl

theorem withMetadata_Result (e : Error) (md : List (String × String)) :
    (e.WithMetadata md).Result = md := rfl

theorem withMetadata_cause (e : Error) (md : List (String × String)) :
    (e.WithMetadata md).cause = e.cause := rfl

theorem withCause_Errcode (e : Error) (c : GoError) :
    (e.WithCause c).Errcode = e.Errcode := rfl

theorem withCause_Errmsg (e : Error) (c : GoError) :
    (e.WithCause c).Errmsg = e.Errmsg := rfl

theorem withCause_Result (e : Error) (c : GoError) :
    (e.WithCause c).Result = e.Result := by
  simp [Error.WithCause, cloneCore, Error.Result, copyMetadata_eq]

theorem withCause_cause (e : Error) (c : GoError) :
    (e.WithCause c).cause = c := rfl

theorem New_Errcode (code : Int) (message : String) :
    (New code message).Errcode = toInt32 code := rfl

theorem New_Errmsg (code : Int) (message : String) :
    (New code message).Errmsg = message := rfl

theorem New_Result (code : Int) (message : String) :
    (New code message).Result = [] := rfl

theorem toInt32_of_range {n : Int} (h1 : -2 ^ 31 ≤ n) (h2 : n < 2 ^ 31) :
    toInt32 n = n := by
  have e31 : (2 : Int) ^ 31 = 2147483648 := by norm_num
  have e32 : (2 : Int) ^ 32 = 4294967296 := by norm_num
  unfold toInt32
  rw [e31, e32] at *
  rw [Int.emod_eq_of_lt (by omega) (by omega)]
  omega

theorem toInt32_range (n : Int) : -2 ^ 31 ≤ toInt32 n ∧ toInt32 n < 2 ^ 31 := by
  have e31 : (2 : Int) ^ 31 = 2147483648 := by norm_num
  have e32 : (2 : Int) ^ 32 = 4294967296 := by norm_num
  have hnz : (2 : Int) ^ 32 ≠ 0 := by norm_num
  have hpos : (0 : Int) < 2 ^ 32 := by norm_num
  have h1 := Int.emod_nonneg (n + 2 ^ 31) hnz
  have h2 := Int.emod_lt_of_pos (n + 2 ^ 31) hpos
  unfold toInt32
  omega

theorem FromError_cons (env : WireEnv) (l : ErrorLayer) (rest : GoError) :
    FromError env (l :: rest) = some (fromErrorCore env (l :: rest)) := rfl

theorem Code_cons (env : WireEnv) (l : ErrorLayer) (rest : GoError) :
    Code env (l :: rest) = (fromErrorCore env (l :: rest)).Errcode := rfl

theorem errorsAsError_toGoError (e : Error) :
    errorsAsError e.toGoError = some e := rfl

theorem fromErrorCore_toGoError (env : WireEnv) (e : Error) :
    fromErrorCore env e.toGoError = e := rfl

/-! ### The claims -/

/-- C2 counterexample: the claim quantifies over every integer code, but
`New` truncates the code with `int32(code)`, so at code 2^31 the code
observed through `FromError` is -2^31, not 2^31. -/
theorem C2_counterexample :
    FromError envK ((New (2 ^ 31) "m").toGoError) = some (New (2 ^ 31) "m") ∧
    (New (2 ^ 31) "m").Errcode = -2 ^ 31 ∧
    (New (2 ^ 31) "m").Errcode ≠ 2 ^ 31 := by
  decide

/-- C2 (amended): for every code in the signed 32-bit range and every
message, `FromError(New(code, message))` is that same `Error`, whose code is
`code` and whose message is `message`. -/
theorem C2_new_from_error (env : WireEnv) (code : Int) (message : String)
    (h1 : -2 ^ 31 ≤ code) (h2 : code < 2 ^ 31) :
    FromError env ((New code message).toGoError) = some (New code message) ∧
    (New code message).Errcode = code ∧
    (New code message).Errmsg = message := by
  refine ⟨rfl, ?_, rfl⟩
  rw [New_Errcode, toInt32_of_range h1 h2]

/-- C2 witness: the amended round trip at code 404, message "not found". -/
theorem C2_new_from_error_witness :
    FromError envK ((New 404 "not found").toGoError) = some (New 404 "not found") ∧
    (New 404 "not found").Errcode = 404 ∧
    (New 404 "not found").Errmsg = "not found" :=
  C2_new_from_error envK 404 "not found" (by norm_num) (by norm_num)

/-- C5: `Code` of the nil error is the success sentinel 200, and for every
non-nil error it is the code of the `Error` that `FromError` returns. -/
theorem C5_code (env : WireEnv) :
    Code env [] = 200 ∧
    ∀ err : GoError, err ≠ [] →
      ∃ e : Error, FromError env err = some e ∧ Code env err = e.Errcode := by
  refine ⟨rfl, ?_⟩
  intro err h
  match err with
  | [] => exact absurd rfl h
  | l :: rest => exact ⟨fromErrorCore env (l :: rest), rfl, rfl⟩

/-- C5 witness: `Code` at the nil error and at a concrete non-nil error. -/
theorem C5_code_witness :
    Code envK [] = 200 ∧
    ∃ e : Error, FromError envK [ErrorLayer.basic "x"] = some e ∧
      Code envK [ErrorLayer.basic "x"] = e.Errcode :=
  ⟨(C5_code envK).1, (C5_code envK).2 [ErrorLayer.basic "x"] (List.cons_ne_nil _ _)⟩

/-- C6: a non-nil error whose chain contains no `*Error` and from which no
wire status can be extracted is wrapped by `FromError` as
`New(UnknownCode, err.Error())`: code 500, message the error's own string
form, empty metadata. -/
theorem C6_opaque_fallback (env : WireEnv) (err : GoError) (hne : err ≠ [])
    (hAs : errorsAsError err = none) (hSt : statusFromError env err = none) :
    FromError env err = some (New UnknownCode (errorString err)) ∧
    (fromErrorCore env err).Errcode = 500 ∧
    (fromErrorCore env err).Errmsg = errorString err ∧
    (fromErrorCore env err).Result = [] := by
  have hcore : fromErrorCore env err = New UnknownCode (errorString err) := by
    unfold fromErrorCore
    simp only [hAs, hSt]
  refine ⟨?_, ?_, ?_, ?_⟩
  · match err with
    | [] => exact absurd rfl hne
    | l :: rest => rw [FromError_cons, hcore]
  · rw [hcore, New_Errcode]; decide
  · rw [hcore, New_Errmsg]
  · rw [hcore, New_Result]

/-- C6 witness: a third-party error with string form "boom" and no status
information. -/
theorem C6_opaque_fallback_witness :
    FromError envK [ErrorLayer.basic "boom"] =
      some (New UnknownCode (errorString [ErrorLayer.basic "boom"])) ∧
    (fromErrorCore envK [ErrorLayer.basic "boom"]).Errcode = 500 ∧
    (fromErrorCore envK [ErrorLayer.basic "boom"]).Errmsg =
      errorString [ErrorLayer.basic "boom"] ∧
    (fromErrorCore envK [ErrorLayer.basic "boom"]).Result = [] :=
  C6_opaque_fallback envK [ErrorLayer.basic "boom"] (by decide) (by decide) (by decide)

/-- C7: for non-nil Errors, `Is` holds exactly when the codes are equal,
whatever the messages, metadata and causes are; in particular two errors with
the same code and different messages match. -/
theorem C7_is_iff_code_eq (e1 e2 : Error) :
    ((e1.Is e2.toGoError) = true ↔ e1.Errcode = e2.Errcode) ∧
    ∀ (code : Int) (msg1 msg2 : String),
      ((New code msg1).Is ((New code msg2).toGoError)) = true := by
  constructor
  · unfold Error.Is
    rw [errorsAsError_toGoError]
    simp only [beq_iff_eq]
    exact eq_comm
  · intro code msg1 msg2
    unfold Error.Is
    rw [errorsAsError_toGoError]
    simp only [beq_iff_eq, New_Errcode]

/-- C8: `Clone` is nil-safe; on a non-nil error it produces a new `Error`
with the same code and message, a metadata map rebuilt entry by entry from
the original (hence entry-wise equal), and the cause reference copied
verbatim. -/
theorem C8_clone (e : Error) :
    Clone none = none ∧
    Clone (some e) = some (cloneCore e) ∧
    (cloneCore e).Errcode = e.Errcode ∧
    (cloneCore e).Errmsg = e.Errmsg ∧
    (cloneCore e).Result = e.Result ∧
    (∀ k, lookupMd k (cloneCore e).Result = lookupMd k e.Result) ∧
    (cloneCore e).cause = e.cause :=
  ⟨rfl, rfl, rfl, rfl, cloneCore_Result e, fun k => by rw [cloneCore_Result], rfl⟩

/-- C9: `WithCause` preserves code, message and metadata (entry-wise), and
the result unwraps to the new cause.  The receiver is never written to: the
method clones first (`cloneCore`) and sets the cause on the copy, so in this
pure embedding `e` itself is unchanged by construction. -/
theorem C9_with_cause (e : Error) (cause : GoError) :
    (e.WithCause cause).Errcode = e.Errcode ∧
    (e.WithCause cause).Errmsg = e.Errmsg ∧
    (e.WithCause cause).Result = e.Result ∧
    (∀ k, lookupMd k (e.WithCause cause).Result = lookupMd k e.Result) ∧
    (e.WithCause cause).Unwrap = cause :=
  ⟨rfl, rfl, withCause_Result e cause, fun k => by rw [withCause_Result], rfl⟩

/-- C10: `New` stores the code through the `int32(code)` conversion, so the
code observable through `FromError` and `Code` is the int32 truncation
(reduction modulo 2^32 into [-2^31, 2^31)), and no code outside that range
is preserved exactly. -/
theorem C10_int32_truncation (env : WireEnv) (code : Int) (message : String) :
    (New code message).Errcode = toInt32 code ∧
    Code env ((New code message).toGoError) = toInt32 code ∧
    toInt32 code = (code + 2 ^ 31) % 2 ^ 32 - 2 ^ 31 ∧
    ∀ c : Int, (c < -2 ^ 31 ∨ 2 ^ 31 ≤ c) → toInt32 c ≠ c := by
  refine ⟨rfl, rfl, rfl, ?_⟩
  intro c h hc
  have hr := toInt32_range c
  rw [hc] at hr
  have e31 : (2 : Int) ^ 31 = 2147483648 := by norm_num
  rw [e31] at h hr
  omega

/-- C10 witness: truncation observed through `Code` at code 2^31, which is
not preserved. -/
theorem C10_int32_truncation_witness :
    Code envK ((New (2 ^ 31) "m").toGoError) = toInt32 (2 ^ 31) ∧
    toInt32 (2 ^ 31) ≠ 2 ^ 31 :=
  ⟨(C10_int32_truncation envK (2 ^ 31) "m").2.1,
   (C10_int32_truncation envK (2 ^ 31) "m").2.2.2 (2 ^ 31) (Or.inr le_rfl)⟩

/-- C1 counterexample: the claim quantifies over every `Error`, but when the
mapper sends the code to the wire OK code (0) — as the real mapper does for
internal code 200 — `WithDetails` fails, `GRPCStatus` returns the nil
status, the transmitted error is nil, and the round trip yields nil rather
than an `Error` carrying the metadata. -/
theorem C1_counterexample :
    roundTrip envK ((New 200 "ok").WithMetadata [("k", "v")]) = none := by
  decide

/-- C1 (amended): when the mapped wire code is not OK (0) (so the detail
attachment succeeds) and the mapper round trip lands in the int32 range, the
wire round trip of `WithMetadata(e, m)` yields an `Error` whose code is
`FromGRPCCode(ToGRPCCode(e.code))`, whose message is `e`'s message, and
whose metadata is entry-wise equal to `m`. -/
theorem C1_round_trip (env : WireEnv) (e : Error) (m : List (String × String))
    (hOK : env.toGRPCCode e.Errcode ≠ 0)
    (h1 : -2 ^ 31 ≤ env.fromGRPCCode (env.toGRPCCode e.Errcode))
    (h2 : env.fromGRPCCode (env.toGRPCCode e.Errcode) < 2 ^ 31) :
    ∃ e' : Error, roundTrip env (e.WithMetadata m) = some e' ∧
      e'.Errcode = env.fromGRPCCode (env.toGRPCCode e.Errcode) ∧
      e'.Errmsg = e.Errmsg ∧
      e'.Result = m ∧
      ∀ k, lookupMd k e'.Result = lookupMd k m := by
  refine ⟨(New (env.fromGRPCCode (env.toGRPCCode e.Errcode)) e.Errmsg).WithMetadata m,
    ?_, ?_, ?_, ?_, ?_⟩
  · have hs : Error.GRPCStatus env (e.WithMetadata m) =
        some { code := env.toGRPCCode e.Errcode, message := e.Errmsg,
               details := [Detail.errorInfo m] } := by
      simp only [Error.GRPCStatus, withDetails, withMetadata_Errcode, withMetadata_Errmsg,
        withMetadata_Result, if_neg hOK, List.nil_append]
    unfold roundTrip
    rw [hs]
    simp only [wireSend, GrpcStatus.toErr, if_neg hOK]
    rfl
  · rw [withMetadata_Errcode, New_Errcode, toInt32_of_range h1 h2]
  · rw [withMetadata_Errmsg, New_Errmsg]
  · rw [withMetadata_Result]
  · intro k
    rw [withMetadata_Result]

/-- C1 witness: the spec's scenario — code 404, message "not found",
metadata resource ↦ user/1 — under the concrete mapper instance. -/
theorem C1_round_trip_witness :
    ∃ e' : Error,
      roundTrip envK ((New 404 "not found").WithMetadata [("resource", "user/1")]) = some e' ∧
      e'.Errcode = envK.fromGRPCCode (envK.toGRPCCode (New 404 "not found").Errcode) ∧
      e'.Errmsg = (New 404 "not found").Errmsg ∧
      e'.Result = [("resource", "user/1")] ∧
      ∀ k, lookupMd k e'.Result = lookupMd k [("resource", "user/1")] :=
  C1_round_trip envK (New 404 "not found") [("resource", "user/1")]
    (by decide) (by decide) (by decide)

/-- C3 counterexample: the claim includes a nil `Error` receiver, but
`WithCause` on a nil receiver clones nil and then writes through the nil
pointer — a panic, modelled by `none` (likewise `WithMetadata`, `Error()`,
`Unwrap`, `GRPCStatus`, and `Is` when the target chain holds an `*Error`). -/
theorem C3_counterexample :
    withCauseNilable none [] = none ∧
    withMetadataNilable none [] = none ∧
    errorStringNilable none = none ∧
    unwrapNilable none = none ∧
    grpcStatusNilable envK none = none ∧
    isNilable none ((New 404 "x").toGoError) = none := by
  decide

/-- C3 (amended): the package-level operations are total, including on nil
arguments (`FromError(nil)` and `Clone(nil)` are nil, `Code(nil)` is 200,
`FromError` always yields a value on non-nil input, `Is` with a target
chain holding no `*Error` is false even on a nil receiver); but every
pointer-receiver method panics on a nil receiver
(`none` in the nilable wrappers), so totality holds only for non-nil
receivers, where each method returns the expected value. -/
theorem C3_totality :
    (∀ (env : WireEnv) (err : GoError), err ≠ [] → (FromError env err).isSome = true) ∧
    (∀ env : WireEnv, FromError env [] = none) ∧
    (∀ env : WireEnv, Code env [] = 200) ∧
    Clone none = none ∧
    (∀ e : Error, Clone (some e) = some (cloneCore e)) ∧
    (∀ (e : Error) (c : GoError), withCauseNilable (some e) c = some (e.WithCause c)) ∧
    (∀ (e : Error) (md : List (String × String)),
      withMetadataNilable (some e) md = some (e.WithMetadata md)) ∧
    (∀ e : Error, errorStringNilable (some e) = some e.errorString) ∧
    (∀ e : Error, unwrapNilable (some e) = some e.Unwrap) ∧
    (∀ (env : WireEnv) (e : Error),
      grpcStatusNilable env (some e) = some (e.GRPCStatus env)) ∧
    (∀ (e : Option Error) (err : GoError), errorsAsError err = none →
      isNilable e err = some false) ∧
    (∀ (e : Error) (c : GoError), withCauseNilable none c = none ∧
      withMetadataNilable none (e.Result) = none) := by
  refine ⟨?_, fun _ => rfl, fun _ => rfl, rfl, fun _ => rfl, fun _ _ => rfl, fun _ _ => rfl,
    fun _ => rfl, fun _ => rfl, fun _ _ => rfl, ?_, fun _ _ => ⟨rfl, rfl⟩⟩
  · intro env err h
    match err with
    | [] => exact absurd rfl h
    | l :: rest => rfl
  · intro e err h
    unfold isNilable
    simp only [h]

/-- C3 witness: totality observed at concrete inputs, with the hypotheses of
the quantified conjuncts discharged there. -/
theorem C3_totality_witness :
    (FromError envK [ErrorLayer.basic "x"]).isSome = true ∧
    isNilable none [ErrorLayer.basic "x"] = some false :=
  ⟨C3_totality.1 envK [ErrorLayer.basic "x"] (List.cons_ne_nil _ _),
   C3_totality.2.2.2.2.2.2.2.2.2.2.1 none [ErrorLayer.basic "x"] rfl⟩

/-- C4: on attach failure the claim expects a degraded status carrying code
and message; the code instead discards the `WithDetails` error and returns
the nil status it produced.  Evaluated at an `Error` whose code maps to the
wire OK code (internal 200 under the real mapper): `GRPCStatus` is nil, not
a code-and-message status. -/
theorem C4_eval :
    Error.GRPCStatus envK ((New 200 "ok").WithMetadata [("k", "v")]) = none ∧
    Error.GRPCStatus envK (New 200 "ok") = none ∧
    (∀ (e : Error) (env : WireEnv), env.toGRPCCode e.Errcode ≠ 0 →
      Error.GRPCStatus env e =
        some { code := env.toGRPCCode e.Errcode, message := e.Errmsg,
               details := [Detail.errorInfo e.Result] }) := by
  refine ⟨by decide, by decide, ?_⟩
  intro e env h
  simp only [Error.GRPCStatus, withDetails, if_neg h, List.nil_append]

/-- C4 witness: the non-failing side of the evaluation at a concrete input
whose code does not map to OK. -/
theorem C4_eval_witness :
    Error.GRPCStatus envK (New 404 "not found") =
      some { code := envK.toGRPCCode (New 404 "not found").Errcode,
             message := (New 404 "not found").Errmsg,
             details := [Detail.errorInfo (New 404 "not found").Result] } :=
  (C4_eval.2.2) (New 404 "not found") envK (by decide)

end serrors
